import Mathlib

/-!
Verification of the RAG pipeline service (`apps/api/src/rag/service.py` and
`apps/api/src/rag/models.py`) against its natural-language specification.

The Python code is shallowly embedded: pydantic models become structures,
pydantic `Field` bounds become a boolean validation function, the stateful
service methods become pure state transformers over an explicit
`PipelineState`, ChromaDB collections become lists of entries, and the
`while` loop of the fixed-size chunker becomes a fuel-indexed function
(`none` = fuel exhausted, so `∀ fuel, … = none` means the loop never
finishes).  Machine floats of the source are modelled with `ℚ`; outbound
effects (document parsing, embedding distances, LLM providers, the
reranker, DB commit outcomes) are oracle parameters of the embedded
functions.
-/

-- ==========================================================================
-- Configuration models (from `rag/models.py`)
-- ==========================================================================

/-- `ChunkingStrategy` enum from `models.py`. -/
inductive ChunkingStrategy where
  | fixed_size
  | recursive
  | sentence
  | paragraph
  | semantic
deriving DecidableEq

/-- `ChunkingConfig` pydantic model: `strategy`, `chunk_size`, `chunk_overlap`. -/
structure ChunkingConfig where
  strategy : ChunkingStrategy
  chunk_size : Int
  chunk_overlap : Int
deriving DecidableEq

/-- `EmbeddingConfig` pydantic model (provider kept abstract as a string). -/
structure EmbeddingConfig where
  provider : String
  model : Option String
deriving DecidableEq

/-- `VectorStoreConfig` pydantic model. -/
structure VectorStoreConfig where
  store_type : String
  collection_name : Option String
deriving DecidableEq

/-- `LLMConfig` pydantic model. -/
structure LLMConfig where
  provider : String
  model : String
deriving DecidableEq

/-- `RetrievalConfig` pydantic model. -/
structure RetrievalConfig where
  top_k : Int
  score_threshold : Option ℚ
  reranking_enabled : Bool
  reranking_top_k : Int
  reranker_model : String
deriving DecidableEq

/-- `RAGPipelineConfig` pydantic model: the request body of pipeline creation. -/
structure RAGPipelineConfig where
  name : String
  description : String
  chunking : ChunkingConfig
  embedding : EmbeddingConfig
  vector_store : VectorStoreConfig
  retrieval : RetrievalConfig
  llm : LLMConfig
deriving DecidableEq

-- ==========================================================================
-- Pydantic validation (the `Field(ge=…, le=…)` bounds in `models.py`)
-- ==========================================================================

/-- Validation of `ChunkingConfig` as pydantic enforces it:
`chunk_size` has `ge=100, le=10000` and `chunk_overlap` has `ge=0, le=2000`.
There is no validator relating `chunk_overlap` to `chunk_size`. -/
def chunkingConfigValid (c : ChunkingConfig) : Bool :=
  100 ≤ c.chunk_size && c.chunk_size ≤ 10000 &&
  0 ≤ c.chunk_overlap && c.chunk_overlap ≤ 2000

/-- Validation of `RetrievalConfig` as pydantic enforces it:
`top_k` has `ge=1, le=50`, `score_threshold` has `ge=0.0, le=1.0` (when
present), `reranking_top_k` has `ge=1, le=20`. -/
def retrievalConfigValid (r : RetrievalConfig) : Bool :=
  1 ≤ r.top_k && r.top_k ≤ 50 &&
  (match r.score_threshold with
   | some t => decide (0 ≤ t) && decide (t ≤ 1)
   | none => true) &&
  1 ≤ r.reranking_top_k && r.reranking_top_k ≤ 20

/-- Validation of the whole creation request: `name` has
`min_length=1, max_length=255`; the nested blocks carry the bounds above.
A request passing this check reaches `RAGService.create_pipeline`. -/
def ragPipelineConfigValid (c : RAGPipelineConfig) : Bool :=
  1 ≤ c.name.length && c.name.length ≤ 255 &&
  chunkingConfigValid c.chunking && retrievalConfigValid c.retrieval

-- ==========================================================================
-- Python slicing / truthiness helpers
-- ==========================================================================

/-- Clamp a Python slice bound to an actual index of a string of length
`len`: negative indices count from the end, out-of-range values clamp. -/
def pyBound (len : Nat) (i : Int) : Nat :=
  if i < 0 then (max 0 (i + len)).toNat else min i.toNat len

/-- Python slice `s[a:b]`. -/
def pySlice (s : String) (a b : Int) : String :=
  let i0 := pyBound s.length a
  let i1 := pyBound s.length b
  String.mk ((s.data.drop i0).take (i1 - i0))

/-- The whitespace characters stripped by Python `str.strip()`. -/
def pyIsSpace (c : Char) : Bool :=
  c = ' ' || c = '\t' || c = '\n' || c = '\r' || c = '\x0b' || c = '\x0c'

/-- Python `s.strip()`: remove leading and trailing whitespace. -/
def pyStrip (s : String) : String :=
  String.mk (((s.data.dropWhile pyIsSpace).reverse.dropWhile pyIsSpace).reverse)

-- ==========================================================================
-- Fixed-size chunker (`RAGService._chunk_fixed_size`)
-- ==========================================================================

/-- Fuel-indexed embedding of the `while start < len(text)` loop of
`_chunk_fixed_size`.  One fuel unit is one loop iteration; `none` means the
fuel ran out before the loop finished, so `∀ fuel, … = none` states that
the Python loop does not terminate. -/
def chunk_fixed_loop (text : String) (size overlap : Int) :
    Nat → Int → List String → Option (List String)
  | 0, _, _ => none
  | fuel + 1, start, chunks =>
    if start < (text.length : Int) then
      let endPos := start + size
      let chunk := pyStrip (pySlice text start endPos)
      let chunks' := if chunk = "" then chunks else chunks ++ [chunk]
      let start' := if overlap > 0 then endPos - overlap else endPos
      if start' ≥ (text.length : Int) then some chunks'
      else chunk_fixed_loop text size overlap fuel start' chunks'
    else some chunks

/-- `RAGService._chunk_fixed_size(text, size, overlap)`, fuel-indexed. -/
def chunk_fixed_size (text : String) (size overlap : Int) (fuel : Nat) :
    Option (List String) :=
  chunk_fixed_loop text size overlap fuel 0 []

/-- Decidable equality for `Except` results, so that concrete runs of the
embedded fallible operations can be checked by `decide`. -/
instance {ε α : Type} [DecidableEq ε] [DecidableEq α] : DecidableEq (Except ε α) :=
  fun a b =>
    match a, b with
    | .ok x, .ok y =>
      if h : x = y then .isTrue (congrArg Except.ok h)
      else .isFalse (fun hh => h (Except.ok.inj hh))
    | .error x, .error y =>
      if h : x = y then .isTrue (congrArg Except.error h)
      else .isFalse (fun hh => h (Except.error.inj hh))
    | .ok _, .error _ => .isFalse (fun hh => Except.noConfusion hh)
    | .error _, .ok _ => .isFalse (fun hh => Except.noConfusion hh)

-- ==========================================================================
-- Pipeline / document / vector-store state
-- ==========================================================================

/-- `RAGPipelineStatus` of the DB model. -/
inductive DBPipelineStatus where
  | created
  | ingesting
  | ready
  | error
deriving DecidableEq

/-- The `.value` string of a `RAGPipelineStatus`. -/
def statusValue : DBPipelineStatus → String
  | .created => "created"
  | .ingesting => "ingesting"
  | .ready => "ready"
  | .error => "error"

/-- A `rag_documents` row (the claim-relevant columns). -/
structure DocRow where
  id : String
  file_name : String
  chunk_count : Nat
  status : String
  error_message : Option String
deriving DecidableEq

/-- One entry of the pipeline's ChromaDB collection: its id, the chunk
text, and the metadata attached by `ingest_document`. -/
structure VecEntry where
  id : String
  content : String
  file_name : String
  document_id : String
  chunk_index : Nat
  chunk_total : Nat
deriving DecidableEq

/-- The state owned by one pipeline: the DB row status and counters, the
document rows, and the ChromaDB collection contents. -/
structure PipelineState where
  status : DBPipelineStatus
  document_count : Int
  chunk_count : Int
  docs : List DocRow
  collection : List VecEntry
deriving DecidableEq

-- ==========================================================================
-- Document ingestion (`RAGService.ingest_document`)
-- ==========================================================================

/-- Outcome of `_parse_document`: an exception or the extracted text. -/
inductive ParseResult where
  | fail (msg : String)
  | ok (text : String)
deriving DecidableEq

/-- Result of `ingest_document`: the upload response on success (carrying
`chunks_created`) or the re-raised exception message. -/
inductive IngestResult where
  | success (chunks_created : Nat)
  | failure (msg : String)
deriving DecidableEq

/-- The `except` branch of `ingest_document` (service.py lines 507-526):
insert a document row with `status="error"` and the exception message,
transition the pipeline to `ERROR`, commit, re-raise. -/
def ingest_error_state (p : PipelineState) (document_id file_name msg : String) :
    PipelineState :=
  { p with
    status := .error
    docs := p.docs ++ [{ id := document_id, file_name := file_name, chunk_count := 0,
                         status := "error", error_message := some msg }] }

/-- `RAGService.ingest_document`.  External effects are explicit
parameters: `parse` is the outcome of `_parse_document`, `chunker` is the
configured chunking strategy applied to the text, and `commit` is `none`
when the final DB commit succeeds and `some msg` when it raises.  The
ChromaDB `collection.add` happens before that commit and is not part of
the DB transaction, so on commit failure the inserted vectors remain while
the processed document row and counter updates are rolled back and the
`except` branch records the error. -/
def ingest_document (p : PipelineState) (pipeline_id document_id file_name : String)
    (parse : ParseResult) (chunker : String → List String) (commit : Option String) :
    PipelineState × IngestResult :=
  let p1 := { p with status := DBPipelineStatus.ingesting }
  match parse with
  | .fail msg => (ingest_error_state p1 document_id file_name msg, .failure msg)
  | .ok text =>
    if pyStrip text = "" then
      (ingest_error_state p1 document_id file_name "Document contains no extractable text",
       .failure "Document contains no extractable text")
    else
      let chunks := chunker text
      if chunks = [] then
        (ingest_error_state p1 document_id file_name "No chunks produced from document",
         .failure "No chunks produced from document")
      else
        let entries := ((List.range chunks.length).zip chunks).map fun ic =>
          { id := pipeline_id ++ "_" ++ document_id ++ "_" ++ toString ic.1
            content := ic.2
            file_name := file_name
            document_id := document_id
            chunk_index := ic.1
            chunk_total := chunks.length : VecEntry }
        let p2 := { p1 with collection := p1.collection ++ entries }
        match commit with
        | none =>
          ({ p2 with
             docs := p2.docs ++ [{ id := document_id, file_name := file_name,
                                   chunk_count := chunks.length, status := "processed",
                                   error_message := none }]
             document_count := p2.document_count + 1
             chunk_count := p2.chunk_count + chunks.length
             status := .ready }, .success chunks.length)
        | some msg => (ingest_error_state p2 document_id file_name msg, .failure msg)

-- ==========================================================================
-- Document deletion (`RAGService.delete_document`)
-- ==========================================================================

/-- `RAGService.delete_document`: look up the document row, delete the
collection entries with `where={"file_name": doc.file_name}`, floor the
counters at zero (`max(0, …)`), reset the status to `CREATED` when
`document_count` reaches zero, delete the row.  The ChromaDB cleanup and
counter update sit in a `try` whose exceptions the source logs and
swallows; the embedding models the exception-free path. -/
def delete_document (p : PipelineState) (document_id : String) :
    Except String PipelineState :=
  match p.docs.find? (fun d => d.id == document_id) with
  | none => .error ("Document not found: " ++ document_id)
  | some doc =>
    let collection' := p.collection.filter fun e => !(e.file_name == doc.file_name)
    let document_count' := max 0 (p.document_count - 1)
    let chunk_count' := max 0 (p.chunk_count - doc.chunk_count)
    let status' := if document_count' = 0 then DBPipelineStatus.created else p.status
    .ok { p with
          collection := collection'
          document_count := document_count'
          chunk_count := chunk_count'
          status := status'
          docs := p.docs.filter fun d => !(d.id == document_id) }

-- ==========================================================================
-- Query and retrieval (`RAGService.query`)
-- ==========================================================================

/-- One collection entry as seen by a fixed query: its text, its
`document_id` metadata, and its cosine distance to the query embedding
(an oracle value in the embedding). -/
structure QChunk where
  content : String
  document_id : String
  dist : ℚ
deriving DecidableEq

/-- Ascending-distance order used by the ANN search. -/
def distLE (a b : QChunk) : Prop := a.dist ≤ b.dist

instance : DecidableRel distLE := fun a b => inferInstanceAs (Decidable (a.dist ≤ b.dist))

instance : IsTotal QChunk distLE := ⟨fun a b => le_total a.dist b.dist⟩

instance : IsTrans QChunk distLE := ⟨fun _ _ _ h h' => le_trans h h'⟩

/-- ChromaDB `collection.query`: results ordered by ascending cosine
distance, truncated to `n_results`. -/
def ann_query (coll : List QChunk) (n_results : Nat) : List QChunk :=
  (List.insertionSort distLE coll).take n_results

/-- A `RetrievedChunk` response entry (content, `document_id` metadata and
the converted score). -/
structure RetrievedChunk where
  content : String
  document_id : String
  score : ℚ
deriving DecidableEq

/-- Conversion of one ANN result row (service.py lines 601-615): the score
is `max(0.0, 1.0 - dist)`; the row is dropped when the configured
`score_threshold` is truthy (set and nonzero) and the score is below it. -/
def to_retrieved (threshold : Option ℚ) (c : QChunk) : Option RetrievedChunk :=
  let s := max 0 (1 - c.dist)
  match threshold with
  | some t =>
    if t ≠ 0 ∧ s < t then none
    else some { content := c.content, document_id := c.document_id, score := s }
  | none => some { content := c.content, document_id := c.document_id, score := s }

/-- The retrieval part of `RAGService.query` (lines 579-633): compute
`fetch_k`, clamp `n_results` by the truthiness-guarded collection count,
run the ANN search, convert and threshold-filter the rows, optionally
rerank (the reranker is an oracle, `none` = reranking failed), and trim to
`top_k`.  Returns the final chunk list and `reranking_applied`. -/
def rag_query (coll : List QChunk) (top_k : Nat) (reranking_enabled : Bool)
    (threshold : Option ℚ)
    (rerank : List RetrievedChunk → Option (List RetrievedChunk)) :
    List RetrievedChunk × Bool :=
  let fetch_k := if reranking_enabled then min (top_k + 5) 15 else top_k
  let n_results := min fetch_k (if coll.length = 0 then 1 else coll.length)
  let results := ann_query coll n_results
  let retrieved := results.filterMap (to_retrieved threshold)
  let rr :=
    if reranking_enabled ∧ retrieved ≠ [] then
      match rerank (retrieved.take 10) with
      | some reranked => (reranked, true)
      | none => (retrieved, false)
    else (retrieved, false)
  (rr.1.take top_k, rr.2)

/-- The status gate of `RAGService.query` (lines 548-551) in front of the
retrieval: a pipeline whose status differs from `READY` is rejected. -/
def query_pipeline (p : PipelineState) (dist : VecEntry → ℚ) (top_k : Nat)
    (reranking_enabled : Bool) (threshold : Option ℚ)
    (rerank : List RetrievedChunk → Option (List RetrievedChunk)) :
    Except String (List RetrievedChunk × Bool) :=
  if p.status = .ready then
    .ok (rag_query
      (p.collection.map fun e =>
        { content := e.content, document_id := e.document_id, dist := dist e })
      top_k reranking_enabled threshold rerank)
  else
    .error ("Pipeline is not ready for queries (status: " ++ statusValue p.status ++ ")")

-- ==========================================================================
-- LLM dispatcher (`RAGService._call_llm`) and answer synthesis
-- ==========================================================================

/-- The fixed fallback order of `_call_llm` (line 989). -/
def fallback_order : List String :=
  ["gemini", "groq", "openrouter", "openai", "anthropic", "deepseek"]

/-- Iterate a provider oracle down a list, returning the first success.
Each `_call_<provider>` swallows its own exceptions and returns `None` on
any failure, which the oracle models. -/
def first_success (oracle : String → Option String) : List String → Option String
  | [] => none
  | p :: rest =>
    match oracle p with
    | some r => some r
    | none => first_success oracle rest

/-- `RAGService._call_llm`: try the configured provider (when it is one of
the keys of `provider_calls`), then walk `fallback_order` skipping the
primary, returning the first success; `none` when everything fails. -/
def call_llm (oracle : String → Option String) (provider : String) : Option String :=
  let primary := if provider ∈ fallback_order then oracle provider else none
  match primary with
  | some r => some r
  | none => first_success oracle (fallback_order.filter fun fb => !(fb == provider))

/-- `RAGService._generate_answer`: builds the prompts and delegates to
`_call_llm`; returns its answer, `none` when no provider succeeded. -/
def generate_answer (oracle : String → Option String) (provider : String) :
    Option String :=
  call_llm oracle provider

/-- The `answer` field of the query response (service.py lines 644-647):
synthesize only when `generate_answer` was requested and the retrieved
chunk list is truthy (nonempty). -/
def query_answer (generate_answer_requested : Bool) (retrieved : List RetrievedChunk)
    (oracle : String → Option String) (provider : String) : Option String :=
  if generate_answer_requested ∧ retrieved ≠ [] then generate_answer oracle provider
  else none

-- ==========================================================================
-- Pipeline registry (`create_pipeline` / `get_pipeline` / `delete_pipeline`)
-- ==========================================================================

/-- A persisted `rag_pipelines` row: name, status and the five stored
config blocks (`vector_store_config` holds the resolved collection name). -/
structure StoredPipeline where
  name : String
  description : String
  status : DBPipelineStatus
  chunking : ChunkingConfig
  embedding : EmbeddingConfig
  vector_store : VectorStoreConfig
  retrieval : RetrievalConfig
  llm : LLMConfig
deriving DecidableEq

/-- Line 158 of `service.py`:
`collection_name = config.vector_store.collection_name or f"pipeline_{pipeline_id[:8]}"`
(Python `or`: `None` and the empty string both fall back to the generated
name). -/
def resolve_collection_name (cfg : RAGPipelineConfig) (pipeline_id : String) : String :=
  match cfg.vector_store.collection_name with
  | some s => if s = "" then "pipeline_" ++ String.mk (pipeline_id.data.take 8) else s
  | none => "pipeline_" ++ String.mk (pipeline_id.data.take 8)

/-- `RAGService.create_pipeline`: resolve the collection name, persist the
row in `CREATED` state with zero counters, return the stored pipeline. -/
def create_pipeline (reg : List (String × StoredPipeline)) (pipeline_id : String)
    (cfg : RAGPipelineConfig) : List (String × StoredPipeline) × StoredPipeline :=
  let st : StoredPipeline :=
    { name := cfg.name
      description := cfg.description
      status := .created
      chunking := cfg.chunking
      embedding := cfg.embedding
      vector_store := { store_type := cfg.vector_store.store_type,
                        collection_name := some (resolve_collection_name cfg pipeline_id) }
      retrieval := cfg.retrieval
      llm := cfg.llm }
  (reg ++ [(pipeline_id, st)], st)

/-- `RAGService.get_pipeline`: select by id; raise
`ValueError("Pipeline not found: …")` when absent. -/
def get_pipeline (reg : List (String × StoredPipeline)) (pipeline_id : String) :
    Except String StoredPipeline :=
  match reg.find? (fun pr => pr.1 == pipeline_id) with
  | some pr => .ok pr.2
  | none => .error ("Pipeline not found: " ++ pipeline_id)

/-- `RAGService.delete_pipeline`: select by id, delete the row (and the
ChromaDB directory); raise the same not-found error when absent. -/
def delete_pipeline (reg : List (String × StoredPipeline)) (pipeline_id : String) :
    Except String (List (String × StoredPipeline)) :=
  match reg.find? (fun pr => pr.1 == pipeline_id) with
  | some _ => .ok (reg.filter fun pr => !(pr.1 == pipeline_id))
  | none => .error ("Pipeline not found: " ++ pipeline_id)

-- ==========================================================================
-- Concrete instances referenced by the claim theorems
-- ==========================================================================

/-- A creation request with `chunk_overlap = 200 ≥ 100 = chunk_size` in
which each field individually satisfies its pydantic `Field` bounds. -/
def c3_badConfig : RAGPipelineConfig :=
  { name := "overlap-too-big"
    description := ""
    chunking := { strategy := .fixed_size, chunk_size := 100, chunk_overlap := 200 }
    embedding := { provider := "chroma_default", model := none }
    vector_store := { store_type := "chroma", collection_name := none }
    retrieval := { top_k := 10, score_threshold := none,
                   reranking_enabled := false, reranking_top_k := 5,
                   reranker_model := "qwen3" }
    llm := { provider := "gemini", model := "gemini-2.5-flash" } }

/-- A 150-character text. -/
def c4_text : String := String.mk (List.replicate 150 'a')

/-- A fresh, empty pipeline. -/
def c1_p0 : PipelineState :=
  { status := .created, document_count := 0, chunk_count := 0, docs := [], collection := [] }

/-- The run of `ingest_document` on the empty pipeline in which parsing and
chunking succeed (one chunk), ChromaDB `collection.add` succeeds, and the
subsequent DB commit raises. -/
def c1_run : PipelineState × IngestResult :=
  ingest_document c1_p0 "P" "D" "f.txt" (.ok "hello world") (fun t => [t])
    (some "db commit failed")

/-- A pipeline that already holds one successfully ingested document. -/
def c6_prior : PipelineState :=
  { status := .ready, document_count := 1, chunk_count := 1,
    docs := [{ id := "D1", file_name := "a.txt", chunk_count := 1,
               status := "processed", error_message := none }],
    collection := [{ id := "P_D1_0", content := "hi", file_name := "a.txt",
                     document_id := "D1", chunk_index := 0, chunk_total := 1 }] }

/-- A pipeline holding two successfully ingested documents `A` and `B`
that were uploaded with the same file name `doc.txt`, one chunk each. -/
def c2_state : PipelineState :=
  { status := .ready, document_count := 2, chunk_count := 2,
    docs := [{ id := "A", file_name := "doc.txt", chunk_count := 1,
               status := "processed", error_message := none },
             { id := "B", file_name := "doc.txt", chunk_count := 1,
               status := "processed", error_message := none }],
    collection := [{ id := "P_A_0", content := "alpha", file_name := "doc.txt",
                     document_id := "A", chunk_index := 0, chunk_total := 1 },
                   { id := "P_B_0", content := "beta", file_name := "doc.txt",
                     document_id := "B", chunk_index := 0, chunk_total := 1 }] }

/-- The state `delete_document c2_state "A"` produces: document `B`'s row
survives with `chunk_count = 1`, but the collection is empty because the
`where={"file_name": …}` delete also removed `B`'s chunk. -/
def c2_after : PipelineState :=
  { status := .ready, document_count := 1, chunk_count := 1,
    docs := [{ id := "B", file_name := "doc.txt", chunk_count := 1,
               status := "processed", error_message := none }],
    collection := [] }

/-- Document row `A` of the distinct-file-name witness scenario. -/
def c2_wA : DocRow :=
  { id := "A", file_name := "a.txt", chunk_count := 1,
    status := "processed", error_message := none }

/-- Document row `B` of the distinct-file-name witness scenario. -/
def c2_wB : DocRow :=
  { id := "B", file_name := "b.txt", chunk_count := 1,
    status := "processed", error_message := none }

/-- A pipeline holding two documents with distinct file names. -/
def c2_wstate : PipelineState :=
  { status := .ready, document_count := 2, chunk_count := 2,
    docs := [c2_wA, c2_wB],
    collection := [{ id := "P_A_0", content := "alpha", file_name := "a.txt",
                     document_id := "A", chunk_index := 0, chunk_total := 1 },
                   { id := "P_B_0", content := "beta", file_name := "b.txt",
                     document_id := "B", chunk_index := 0, chunk_total := 1 }] }

/-- A two-chunk collection with concrete cosine distances, as seen by one
fixed query. -/
def c5_coll : List QChunk :=
  [{ content := "far", document_id := "B", dist := 1/2 },
   { content := "near", document_id := "A", dist := 1/4 }]

/-- A creation request that leaves `collection_name` unset. -/
def c7_cfg : RAGPipelineConfig :=
  { name := "news"
    description := "daily news"
    chunking := { strategy := .recursive, chunk_size := 1000, chunk_overlap := 200 }
    embedding := { provider := "chroma_default", model := none }
    vector_store := { store_type := "chroma", collection_name := none }
    retrieval := { top_k := 10, score_threshold := none,
                   reranking_enabled := true, reranking_top_k := 5,
                   reranker_model := "qwen3" }
    llm := { provider := "gemini", model := "gemini-2.5-flash" } }

/-- A creation request with an explicit nonempty `collection_name`. -/
def c7_wcfg : RAGPipelineConfig :=
  { c7_cfg with vector_store := { store_type := "chroma", collection_name := some "mycoll" } }

/-- A provider oracle under which the configured primary (`openai`) and
the first fallback (`gemini`) fail while `groq` succeeds. -/
def c8_oracle : String → Option String := fun p =>
  if p = "groq" then some "groq says hi" else none

/-- A pipeline holding exactly one successfully ingested document. -/
def c9_state : PipelineState :=
  { status := .ready, document_count := 1, chunk_count := 2,
    docs := [{ id := "D1", file_name := "a.txt", chunk_count := 2,
               status := "processed", error_message := none }],
    collection := [{ id := "P_D1_0", content := "one", file_name := "a.txt",
                     document_id := "D1", chunk_index := 0, chunk_total := 2 },
                   { id := "P_D1_1", content := "two", file_name := "a.txt",
                     document_id := "D1", chunk_index := 1, chunk_total := 2 }] }

/-- The state produced by deleting the only document of `c9_state`. -/
def c9_after : PipelineState :=
  { status := .created, document_count := 0, chunk_count := 0, docs := [], collection := [] }

-- ==========================================================================
-- Claim C3: configuration validation bounds
-- ==========================================================================

/-- Claim C3: the claim states that every configuration with
`chunk_overlap ≥ chunk_size` fails with `ValidationError` and no pipeline
is created.  The code enforces only the per-field pydantic bounds
(`100 ≤ chunk_size ≤ 10000`, `0 ≤ chunk_overlap ≤ 2000`, `1 ≤ top_k ≤ 50`):
the config `c3_badConfig` with `chunk_size = 100` and `chunk_overlap = 200`
passes validation, so pipeline creation proceeds, contradicting the claim. -/
theorem c3_overlap_ge_size_accepted :
    c3_badConfig.chunking.chunk_size ≤ c3_badConfig.chunking.chunk_overlap ∧
    ragPipelineConfigValid c3_badConfig = true := by
  constructor
  · decide
  · decide

-- ==========================================================================
-- Claim C4: fixed-size chunker termination
-- ==========================================================================

set_option maxRecDepth 100000 in
/-- One iteration of the loop at `size = overlap = 100`, `start = 0`:
the slice is appended and `start` is reset to `100 - 100 = 0`. -/
theorem c4_loop_step (fuel : Nat) (chunks : List String) :
    chunk_fixed_loop c4_text 100 100 (fuel + 1) 0 chunks =
      chunk_fixed_loop c4_text 100 100 fuel 0
        (chunks ++ [String.mk (List.replicate 100 'a')]) := by
  rfl

/-- The loop state never changes: from `start = 0` it always returns to
`start = 0`, so no amount of fuel completes the loop. -/
theorem c4_loop_diverges (fuel : Nat) :
    ∀ chunks : List String, chunk_fixed_loop c4_text 100 100 fuel 0 chunks = none := by
  induction fuel with
  | zero => intro chunks; rfl
  | succ n ih =>
    intro chunks
    rw [c4_loop_step]
    exact ih _

/-- Claim C4: the claim states the fixed-size chunker terminates for every
configuration accepted by pipeline creation.  The configuration
`chunk_size = 100, chunk_overlap = 100` is accepted (only the per-field
bounds are validated), yet on the 150-character text `c4_text` the loop
advances `start` by `size − overlap = 0` and never terminates: every
finite iteration budget is exhausted. -/
theorem c4_chunker_diverges_on_accepted_config :
    chunkingConfigValid { strategy := .fixed_size, chunk_size := 100, chunk_overlap := 100 } = true ∧
    ∀ fuel : Nat, chunk_fixed_size c4_text 100 100 fuel = none := by
  refine ⟨by decide, fun fuel => ?_⟩
  exact c4_loop_diverges fuel []

-- ==========================================================================
-- Claim C1: compensation after a failed ingest
-- ==========================================================================

/-- Claim C1: the claim states that after every failed ingest no chunk with
the failed document's id exists in the vector collection.  In `c1_run` the
DB commit fails after the ChromaDB insert; `ingest_document` has no
compensation delete in its `except` branch, so the chunk with
`document_id = "D"` remains in the collection while the ingest reports
failure (the counters, rolled back with the DB transaction, stay at 0). -/
theorem c1_failed_ingest_leaves_chunks :
    (c1_run.1.collection.filter fun e => e.document_id == "D").length = 1 ∧
    c1_run.2 = .failure "db commit failed" ∧
    c1_run.1.document_count = 0 ∧
    c1_run.1.chunk_count = 0 ∧
    c1_run.1.docs = [{ id := "D", file_name := "f.txt", chunk_count := 0,
                       status := "error", error_message := some "db commit failed" }] := by
  decide

-- ==========================================================================
-- Claim C6: pipeline status after a failed ingest
-- ==========================================================================

/-- Claim C6 counterexample: a pipeline with one successfully ingested
document (`c6_prior`) suffers a parse failure on the next ingest; the code
unconditionally sets the status to `ERROR` (service.py line 521), while
the claim requires it to return to `READY` because a prior document was
ingested successfully. -/
theorem c6_counterexample :
    c6_prior.document_count = 1 ∧
    (c6_prior.docs.filter fun d => d.status == "processed").length = 1 ∧
    (ingest_document c6_prior "P" "D2" "b.txt" (.fail "boom") (fun t => [t]) none).1.status
      = .error := by
  decide

/-- Claim C6 (amended): every failed ingest transitions the pipeline to
`ERROR`, regardless of previously successful documents, and writes a
document row with `status="error"` carrying the failure message. -/
theorem c6_failed_ingest_always_error (p : PipelineState) (pid did fn : String)
    (parse : ParseResult) (chunker : String → List String) (commit : Option String)
    (msg : String)
    (h : (ingest_document p pid did fn parse chunker commit).2 = .failure msg) :
    (ingest_document p pid did fn parse chunker commit).1.status = .error ∧
    ({ id := did, file_name := fn, chunk_count := 0, status := "error",
       error_message := some msg } : DocRow)
      ∈ (ingest_document p pid did fn parse chunker commit).1.docs := by
  cases parse with
  | fail m =>
    simp only [ingest_document] at h ⊢
    obtain rfl : m = msg := by injection h
    simp [ingest_error_state]
  | ok text =>
    by_cases h1 : pyStrip text = ""
    · simp only [ingest_document, if_pos h1] at h ⊢
      obtain rfl : "Document contains no extractable text" = msg := by injection h
      simp [ingest_error_state]
    · by_cases h2 : chunker text = []
      · simp only [ingest_document, if_neg h1, if_pos h2] at h ⊢
        obtain rfl : "No chunks produced from document" = msg := by injection h
        simp [ingest_error_state]
      · cases commit with
        | none =>
          simp only [ingest_document, if_neg h1, if_neg h2] at h
          exact absurd h (by simp)
        | some m =>
          simp only [ingest_document, if_neg h1, if_neg h2] at h ⊢
          obtain rfl : m = msg := by injection h
          simp [ingest_error_state]

/-- Claim C6 witness: the amended statement evaluated on the concrete
failed ingest of the counterexample scenario. -/
theorem c6_failed_ingest_always_error_witness :
    (ingest_document c6_prior "P" "D2" "b.txt" (.fail "boom") (fun t => [t]) none).1.status
      = .error ∧
    ({ id := "D2", file_name := "b.txt", chunk_count := 0, status := "error",
       error_message := some "boom" } : DocRow)
      ∈ (ingest_document c6_prior "P" "D2" "b.txt" (.fail "boom") (fun t => [t]) none).1.docs :=
  c6_failed_ingest_always_error c6_prior "P" "D2" "b.txt" (.fail "boom") (fun t => [t])
    none "boom" (by decide)

-- ==========================================================================
-- Claim C2: document deletion scoping
-- ==========================================================================

/-- Claim C2 counterexample: in `c2_state`, documents `A` and `B` share the
file name `doc.txt`.  Deleting `A` issues
`collection.delete(where={"file_name": "doc.txt"})`, which also removes
`B`'s chunk: afterwards `B`'s row still reports `chunk_count = 1`, but the
collection is empty, so a subsequent query returns none of `B`'s chunks
and the collection count differs from `B`'s chunk count — contradicting
the claim for same-file-name pairs. -/
theorem c2_counterexample :
    delete_document c2_state "A" = Except.ok c2_after ∧
    c2_after.collection = [] ∧
    c2_after.document_count = 1 ∧
    (c2_state.docs.find? fun d => d.id == "B") =
      some { id := "B", file_name := "doc.txt", chunk_count := 1,
             status := "processed", error_message := none } ∧
    (c2_state.collection.filter fun e => e.document_id == "B").length = 1 ∧
    c2_after.collection.length ≠ 1 := by
  decide

/-- Claim C2 (amended): deleting document `A` removes exactly `A`'s chunks
and leaves `B`'s intact — provided `A` and `B` were uploaded with distinct
file names (the `where={"file_name": …}` delete also removes the chunks of
a same-named document). -/
theorem c2_delete_document_distinct_file_names (p : PipelineState) (A B : DocRow)
    (hdocs : p.docs = [A, B])
    (hid : A.id ≠ B.id)
    (hname : A.file_name ≠ B.file_name)
    (hA : ∀ e ∈ p.collection, e.document_id = A.id → e.file_name = A.file_name)
    (hB : ∀ e ∈ p.collection, e.document_id = B.id → e.file_name = B.file_name)
    (hpart : ∀ e ∈ p.collection, e.document_id = A.id ∨ e.document_id = B.id)
    (hdc : p.document_count = 2)
    (hcc : p.chunk_count = (A.chunk_count : Int) + (B.chunk_count : Int))
    (hbc : (p.collection.filter fun e => e.document_id == B.id).length = B.chunk_count) :
    ∃ p', delete_document p A.id = Except.ok p' ∧
      p'.collection = p.collection.filter (fun e => e.document_id == B.id) ∧
      (∀ e ∈ p'.collection, e.document_id = B.id) ∧
      p'.document_count = 1 ∧
      p'.chunk_count = (B.chunk_count : Int) ∧
      p'.collection.length = B.chunk_count ∧
      p'.docs = [B] := by
  have hfind : p.docs.find? (fun d => d.id == A.id) = some A := by
    rw [hdocs]
    exact List.find?_cons_of_pos _ (by simp)
  have hcoll : (p.collection.filter fun e => !(e.file_name == A.file_name)) =
      p.collection.filter (fun e => e.document_id == B.id) := by
    apply List.filter_congr
    intro e he
    rcases hpart e he with h1 | h1
    · have h2 := hA e he h1
      simp [h1, h2, hid]
    · have h2 := hB e he h1
      simp [h1, h2, Ne.symm hname]
  have hdocs' : (p.docs.filter fun d => !(d.id == A.id)) = [B] := by
    rw [hdocs]
    have h1 : (A.id == A.id) = true := by simp
    have h2 : (B.id == A.id) = false := by
      simp only [beq_eq_false_iff_ne]
      exact Ne.symm hid
    simp [List.filter, h1, h2]
  refine ⟨{ status := if max 0 (p.document_count - 1) = 0 then DBPipelineStatus.created
                      else p.status
            document_count := max 0 (p.document_count - 1)
            chunk_count := max 0 (p.chunk_count - (A.chunk_count : Int))
            docs := p.docs.filter fun d => !(d.id == A.id)
            collection := p.collection.filter fun e => !(e.file_name == A.file_name) },
          ?_, ?_, ?_, ?_, ?_, ?_, ?_⟩
  · simp only [delete_document, hfind]
  · exact hcoll
  · intro e he
    have he' : e ∈ p.collection.filter (fun e => e.document_id == B.id) := by
      rw [← hcoll]; exact he
    have := List.mem_filter.mp he'
    simpa using this.2
  · show max 0 (p.document_count - 1) = 1
    rw [hdc]
    decide
  · show max 0 (p.chunk_count - (A.chunk_count : Int)) = (B.chunk_count : Int)
    rw [hcc]
    have h1 : (A.chunk_count : Int) + (B.chunk_count : Int) - (A.chunk_count : Int) =
        (B.chunk_count : Int) := by ring
    rw [h1]
    exact max_eq_right (by positivity)
  · show (p.collection.filter fun e => !(e.file_name == A.file_name)).length = B.chunk_count
    rw [hcoll]
    exact hbc
  · exact hdocs'

/-- Claim C2 witness: the amended statement evaluated on two concrete
documents with distinct file names and one chunk each. -/
theorem c2_delete_document_distinct_file_names_witness :
    ∃ p', delete_document c2_wstate c2_wA.id = Except.ok p' ∧
      p'.collection = c2_wstate.collection.filter (fun e => e.document_id == c2_wB.id) ∧
      (∀ e ∈ p'.collection, e.document_id = c2_wB.id) ∧
      p'.document_count = 1 ∧
      p'.chunk_count = (c2_wB.chunk_count : Int) ∧
      p'.collection.length = c2_wB.chunk_count ∧
      p'.docs = [c2_wB] :=
  c2_delete_document_distinct_file_names c2_wstate c2_wA c2_wB (by decide) (by decide)
    (by decide) (by decide) (by decide) (by decide) (by decide) (by decide) (by decide)

-- ==========================================================================
-- Claim C9: deleting the last document resets the pipeline
-- ==========================================================================

/-- Claim C9: when `delete_document` removes the last remaining document
(`document_count` was 1), the resulting count is floored at zero, the
status is reset to `CREATED`, every subsequent query is rejected by the
readiness gate, a later successful ingest returns the status to `READY`,
and the counters of every delete result are non-negative. -/
theorem c9_delete_last_document_resets (p p' : PipelineState) (document_id : String)
    (h : delete_document p document_id = Except.ok p')
    (hdc : p.document_count = 1) :
    p'.document_count = 0 ∧
    0 ≤ p'.document_count ∧ 0 ≤ p'.chunk_count ∧
    p'.status = .created ∧
    (∀ dist top_k reranking_enabled threshold rerank,
      query_pipeline p' dist top_k reranking_enabled threshold rerank =
        Except.error "Pipeline is not ready for queries (status: created)") ∧
    (∀ pid did fn text chunker,
      pyStrip text ≠ "" → chunker text ≠ [] →
      (ingest_document p' pid did fn (.ok text) chunker none).1.status = .ready) ∧
    (∀ (q q' : PipelineState) (d : String), delete_document q d = Except.ok q' →
      0 ≤ q'.document_count ∧ 0 ≤ q'.chunk_count) := by
  have floors : ∀ (q q' : PipelineState) (d : String), delete_document q d = Except.ok q' →
      0 ≤ q'.document_count ∧ 0 ≤ q'.chunk_count := by
    intro q q' d hq
    cases hfind : q.docs.find? (fun r => r.id == d) with
    | none => simp [delete_document, hfind] at hq
    | some doc =>
      simp only [delete_document, hfind] at hq
      injection hq with hq'
      constructor
      · rw [← hq']
        exact le_max_left 0 _
      · rw [← hq']
        exact le_max_left 0 _
  cases hfind : p.docs.find? (fun d => d.id == document_id) with
  | none => simp [delete_document, hfind] at h
  | some doc =>
    simp only [delete_document, hfind] at h
    injection h with h'
    subst h'
    have hdc0 : max 0 (p.document_count - 1) = 0 := by
      rw [hdc]
      decide
    refine ⟨hdc0, le_max_left 0 _, le_max_left 0 _, by simp [hdc0], ?_, ?_, floors⟩
    · intro dist top_k reranking_enabled threshold rerank
      simp [query_pipeline, hdc0, statusValue]
    · intro pid did fn text chunker h1 h2
      simp only [ingest_document, if_neg h1, if_neg h2]

/-- Claim C9 witness: deleting the only document of the concrete pipeline
`c9_state` yields `c9_after` with status `CREATED` and floored counters. -/
theorem c9_delete_last_document_resets_witness :
    c9_after.document_count = 0 ∧
    0 ≤ c9_after.document_count ∧ 0 ≤ c9_after.chunk_count ∧
    c9_after.status = .created ∧
    (∀ dist top_k reranking_enabled threshold rerank,
      query_pipeline c9_after dist top_k reranking_enabled threshold rerank =
        Except.error "Pipeline is not ready for queries (status: created)") ∧
    (∀ pid did fn text chunker,
      pyStrip text ≠ "" → chunker text ≠ [] →
      (ingest_document c9_after pid did fn (.ok text) chunker none).1.status = .ready) ∧
    (∀ (q q' : PipelineState) (d : String), delete_document q d = Except.ok q' →
      0 ≤ q'.document_count ∧ 0 ≤ q'.chunk_count) :=
  c9_delete_last_document_resets c9_state c9_after "D1" (by decide) (by decide)

-- ==========================================================================
-- Claim C5: retrieval count, score formula, score range, ordering
-- ==========================================================================

/-- With no score threshold configured, the row conversion never drops a
row: the `filterMap` is a plain `map` of the score formula. -/
theorem filterMap_to_retrieved_none (l : List QChunk) :
    l.filterMap (to_retrieved none) =
      l.map fun c => { content := c.content, document_id := c.document_id,
                       score := max 0 (1 - c.dist) : RetrievedChunk } := by
  induction l with
  | nil => rfl
  | cons a l ih => simp [List.filterMap_cons, to_retrieved, ih]

/-- Claim C5: a query with reranking disabled, no metadata filters and no
score threshold on a collection of `N` chunks returns exactly
`min top_k N` results; every result carries the score
`max 0 (1 − cosine_distance)` of one collection chunk, all scores lie in
`[0, 1]` (given non-negative cosine distances), the results are sorted by
descending score, and `reranking_applied` is false. -/
theorem c5_query_count_scores_sorted (coll : List QChunk) (top_k : Nat)
    (rerank : List RetrievedChunk → Option (List RetrievedChunk))
    (hd : ∀ c ∈ coll, 0 ≤ c.dist) :
    (rag_query coll top_k false none rerank).1.length = min top_k coll.length ∧
    (∀ r ∈ (rag_query coll top_k false none rerank).1,
      (∃ c ∈ coll, r.content = c.content ∧ r.document_id = c.document_id ∧
        r.score = max 0 (1 - c.dist)) ∧ 0 ≤ r.score ∧ r.score ≤ 1) ∧
    List.Sorted (fun a b => b.score ≤ a.score) (rag_query coll top_k false none rerank).1 ∧
    (rag_query coll top_k false none rerank).2 = false := by
  have hq : rag_query coll top_k false none rerank =
      ((((List.insertionSort distLE coll).take
            (min top_k (if coll.length = 0 then 1 else coll.length))).map
          (fun c => { content := c.content, document_id := c.document_id,
                      score := max 0 (1 - c.dist) : RetrievedChunk })).take top_k,
        false) := by
    simp [rag_query, ann_query, filterMap_to_retrieved_none]
  rw [hq]
  have hSL : (List.insertionSort distLE coll).length = coll.length :=
    (List.perm_insertionSort distLE coll).length_eq
  refine ⟨?_, ?_, ?_, rfl⟩
  · rw [List.length_take, List.length_map, List.length_take, hSL]
    by_cases h0 : coll.length = 0
    · simp [h0]
    · simp only [if_neg h0]
      omega
  · intro r hr
    have hr1 := List.mem_of_mem_take hr
    obtain ⟨c, hc, rfl⟩ := List.mem_map.mp hr1
    have hc1 : c ∈ List.insertionSort distLE coll := List.mem_of_mem_take hc
    have hc2 : c ∈ coll := (List.mem_insertionSort distLE).mp hc1
    refine ⟨⟨c, hc2, rfl, rfl, rfl⟩, le_max_left 0 _, ?_⟩
    have := hd c hc2
    apply max_le
    · norm_num
    · linarith
  · have hs : List.Sorted distLE (List.insertionSort distLE coll) :=
      List.sorted_insertionSort distLE coll
    have hs2 : List.Sorted distLE
        ((List.insertionSort distLE coll).take
          (min top_k (if coll.length = 0 then 1 else coll.length))) :=
      List.Pairwise.sublist (List.take_sublist _ _) hs
    have hs3 : List.Sorted (fun a b : RetrievedChunk => b.score ≤ a.score)
        (((List.insertionSort distLE coll).take
            (min top_k (if coll.length = 0 then 1 else coll.length))).map
          (fun c => { content := c.content, document_id := c.document_id,
                      score := max 0 (1 - c.dist) : RetrievedChunk })) := by
      rw [List.Sorted, List.pairwise_map]
      refine hs2.imp ?_
      intro a b hab
      exact max_le_max le_rfl (sub_le_sub_left hab 1)
    exact List.Pairwise.sublist (List.take_sublist _ _) hs3

/-- Claim C5 witness: the statement evaluated on the concrete two-chunk
collection `c5_coll` with `top_k = 5`. -/
theorem c5_query_count_scores_sorted_witness :
    (rag_query c5_coll 5 false none fun _ => none).1.length = min 5 c5_coll.length ∧
    (∀ r ∈ (rag_query c5_coll 5 false none fun _ => none).1,
      (∃ c ∈ c5_coll, r.content = c.content ∧ r.document_id = c.document_id ∧
        r.score = max 0 (1 - c.dist)) ∧ 0 ≤ r.score ∧ r.score ≤ 1) ∧
    List.Sorted (fun a b => b.score ≤ a.score)
      (rag_query c5_coll 5 false none fun _ => none).1 ∧
    (rag_query c5_coll 5 false none fun _ => none).2 = false :=
  c5_query_count_scores_sorted c5_coll 5 (fun _ => none) (by
    intro c hc
    simp only [c5_coll, List.mem_cons, List.not_mem_nil, or_false] at hc
    rcases hc with h | h <;> subst h <;> norm_num)

-- ==========================================================================
-- Claim C7: create / get / delete round trip
-- ==========================================================================

/-- Looking up a fresh id after appending its row finds that row. -/
theorem find_append_fresh (reg : List (String × StoredPipeline)) (pipeline_id : String)
    (st : StoredPipeline) (hfresh : ∀ pr ∈ reg, pr.1 ≠ pipeline_id) :
    (reg ++ [(pipeline_id, st)]).find? (fun pr => pr.1 == pipeline_id) =
      some (pipeline_id, st) := by
  induction reg with
  | nil => simp [List.find?]
  | cons a l ih =>
    have ha : (a.1 == pipeline_id) = false := by
      simp only [beq_eq_false_iff_ne]
      exact hfresh a (List.mem_cons_self a l)
    rw [List.cons_append]
    simp only [List.find?_cons, ha]
    exact ih fun pr hpr => hfresh pr (List.mem_cons_of_mem a hpr)

/-- After filtering out an id, looking it up fails. -/
theorem find_filter_eq_none (reg : List (String × StoredPipeline)) (pipeline_id : String) :
    (reg.filter fun pr => !(pr.1 == pipeline_id)).find? (fun pr => pr.1 == pipeline_id) =
      none := by
  rw [List.find?_eq_none]
  intro x hx
  have hx2 := (List.mem_filter.mp hx).2
  simp only [Bool.not_eq_true', beq_eq_false_iff_ne] at hx2
  simp only [beq_iff_eq]
  exact hx2

/-- Claim C7 counterexample: for a valid configuration that leaves
`collection_name` unset, `create → get` does not return the configuration
passed to create: the stored `vector_store` block carries the generated
collection name `pipeline_<id[:8]>` instead of `None`. -/
theorem c7_counterexample :
    ragPipelineConfigValid c7_cfg = true ∧
    c7_cfg.vector_store.collection_name = none ∧
    get_pipeline (create_pipeline [] "11112222-3333" c7_cfg).1 "11112222-3333" =
      Except.ok (create_pipeline [] "11112222-3333" c7_cfg).2 ∧
    (create_pipeline [] "11112222-3333" c7_cfg).2.vector_store.collection_name =
      some "pipeline_11112222" ∧
    (create_pipeline [] "11112222-3333" c7_cfg).2.vector_store ≠ c7_cfg.vector_store := by
  decide

/-- Claim C7 (amended): for every valid configuration, `create → get`
returns the configuration passed to create except that
`vector_store.collection_name` is replaced by the resolved name: when an
explicit nonempty name was given the stored `vector_store` block equals
the one passed, and when the name was unset or empty the stored block
carries the generated `pipeline_<id[:8]>`; in both cases every other
configuration block is returned unchanged.  In all cases
`create → delete → get` fails with the not-found error. -/
theorem c7_create_get_delete_roundtrip (reg : List (String × StoredPipeline))
    (pipeline_id : String) (cfg : RAGPipelineConfig)
    (hfresh : ∀ pr ∈ reg, pr.1 ≠ pipeline_id) :
    (∃ st, get_pipeline (create_pipeline reg pipeline_id cfg).1 pipeline_id = Except.ok st ∧
      st.name = cfg.name ∧ st.description = cfg.description ∧
      st.chunking = cfg.chunking ∧ st.embedding = cfg.embedding ∧
      st.retrieval = cfg.retrieval ∧ st.llm = cfg.llm ∧ st.status = .created ∧
      st.vector_store.store_type = cfg.vector_store.store_type ∧
      st.vector_store.collection_name = some (resolve_collection_name cfg pipeline_id) ∧
      (∀ s, cfg.vector_store.collection_name = some s → s ≠ "" →
        st.vector_store = cfg.vector_store) ∧
      (cfg.vector_store.collection_name = none ∨
          cfg.vector_store.collection_name = some "" →
        st.vector_store.collection_name =
          some ("pipeline_" ++ String.mk (pipeline_id.data.take 8)))) ∧
    (∃ reg2, delete_pipeline (create_pipeline reg pipeline_id cfg).1 pipeline_id =
        Except.ok reg2 ∧
      get_pipeline reg2 pipeline_id =
        Except.error ("Pipeline not found: " ++ pipeline_id)) := by
  have hfind2 : (create_pipeline reg pipeline_id cfg).1.find?
      (fun pr => pr.1 == pipeline_id) =
        some (pipeline_id, (create_pipeline reg pipeline_id cfg).2) :=
    find_append_fresh reg pipeline_id _ hfresh
  refine ⟨⟨(create_pipeline reg pipeline_id cfg).2,
           ?_, rfl, rfl, rfl, rfl, rfl, rfl, rfl, rfl, rfl, ?_, ?_⟩,
          ⟨(create_pipeline reg pipeline_id cfg).1.filter fun pr => !(pr.1 == pipeline_id),
           ?_, ?_⟩⟩
  · simp only [get_pipeline, hfind2]
  · intro s hs hne
    have hres : resolve_collection_name cfg pipeline_id = s := by
      simp [resolve_collection_name, hs, hne]
    show ({ store_type := cfg.vector_store.store_type,
            collection_name := some (resolve_collection_name cfg pipeline_id) }
        : VectorStoreConfig) = cfg.vector_store
    have h1 : cfg.vector_store =
        { store_type := cfg.vector_store.store_type,
          collection_name := cfg.vector_store.collection_name } := rfl
    rw [hres]
    conv_rhs => rw [h1, hs]
  · intro h
    show some (resolve_collection_name cfg pipeline_id) =
      some ("pipeline_" ++ String.mk (pipeline_id.data.take 8))
    rcases h with h | h <;> simp [resolve_collection_name, h]
  · simp only [delete_pipeline, hfind2]
  · simp only [get_pipeline, find_filter_eq_none]

/-- Claim C7 witness: the amended statement evaluated on the concrete
configuration `c7_cfg`, whose `collection_name` is unset, so the returned
`vector_store` block carries the generated collection name. -/
theorem c7_create_get_delete_roundtrip_witness :
    (∃ st, get_pipeline (create_pipeline [] "pid-12345678" c7_cfg).1 "pid-12345678" =
        Except.ok st ∧
      st.name = c7_cfg.name ∧ st.description = c7_cfg.description ∧
      st.chunking = c7_cfg.chunking ∧ st.embedding = c7_cfg.embedding ∧
      st.retrieval = c7_cfg.retrieval ∧ st.llm = c7_cfg.llm ∧ st.status = .created ∧
      st.vector_store.store_type = c7_cfg.vector_store.store_type ∧
      st.vector_store.collection_name =
        some (resolve_collection_name c7_cfg "pid-12345678") ∧
      (∀ s, c7_cfg.vector_store.collection_name = some s → s ≠ "" →
        st.vector_store = c7_cfg.vector_store) ∧
      (c7_cfg.vector_store.collection_name = none ∨
          c7_cfg.vector_store.collection_name = some "" →
        st.vector_store.collection_name =
          some ("pipeline_" ++ String.mk ("pid-12345678".data.take 8)))) ∧
    (∃ reg2, delete_pipeline (create_pipeline [] "pid-12345678" c7_cfg).1 "pid-12345678" =
        Except.ok reg2 ∧
      get_pipeline reg2 "pid-12345678" =
        Except.error ("Pipeline not found: " ++ "pid-12345678")) :=
  c7_create_get_delete_roundtrip [] "pid-12345678" c7_cfg
    (by intro pr hpr; cases hpr)

-- ==========================================================================
-- Claim C8: LLM dispatcher fallback order
-- ==========================================================================

/-- Walking a provider list returns the first success: providers before a
succeeding one that all fail are skipped. -/
theorem first_success_of_split (oracle : String → Option String) :
    ∀ (l₁ : List String) (q : String) (l₂ : List String) (r : String),
      (∀ p ∈ l₁, oracle p = none) → oracle q = some r →
      first_success oracle (l₁ ++ q :: l₂) = some r := by
  intro l₁
  induction l₁ with
  | nil =>
    intro q l₂ r _ hq
    simp [first_success, hq]
  | cons a l ih =>
    intro q l₂ r hfail hq
    have ha : oracle a = none := hfail a (List.mem_cons_self a l)
    simp only [List.cons_append, first_success, ha]
    exact ih q l₂ r (fun p hp => hfail p (List.mem_cons_of_mem a hp)) hq

/-- Walking a provider list on which the oracle always fails yields `none`. -/
theorem first_success_eq_none (oracle : String → Option String) (l : List String)
    (h : ∀ p ∈ l, oracle p = none) : first_success oracle l = none := by
  induction l with
  | nil => rfl
  | cons a t ih =>
    simp only [first_success, h a (List.mem_cons_self a t)]
    exact ih fun p hp => h p (List.mem_cons_of_mem a hp)

/-- Claim C8: when the configured primary provider fails, `_call_llm`
returns the response of the first succeeding provider in the fixed
fallback order with the primary skipped; when every provider fails, the
dispatcher returns `none` (it is a total function — no exception escapes). -/
theorem c8_call_llm_fallback (oracle : String → Option String) (provider : String)
    (hprov : provider ∈ fallback_order)
    (hfail : oracle provider = none) :
    (∀ (l₁ : List String) (q : String) (l₂ : List String) (r : String),
      fallback_order.filter (fun fb => !(fb == provider)) = l₁ ++ q :: l₂ →
      (∀ p ∈ l₁, oracle p = none) → oracle q = some r →
      call_llm oracle provider = some r) ∧
    ((∀ p ∈ fallback_order, oracle p = none) → call_llm oracle provider = none) := by
  have hcall : call_llm oracle provider =
      first_success oracle (fallback_order.filter fun fb => !(fb == provider)) := by
    simp only [call_llm]
    rw [if_pos hprov, hfail]
  constructor
  · intro l₁ q l₂ r hsplit hprefail hq
    rw [hcall, hsplit]
    exact first_success_of_split oracle l₁ q l₂ r hprefail hq
  · intro hall
    rw [hcall]
    exact first_success_eq_none oracle _ fun p hp => hall p (List.mem_of_mem_filter hp)

/-- Claim C8 witness: with primary `openai` failing, `gemini` failing and
`groq` succeeding, the dispatcher returns `groq`'s response. -/
theorem c8_call_llm_fallback_witness :
    call_llm c8_oracle "openai" = some "groq says hi" :=
  (c8_call_llm_fallback c8_oracle "openai" (by decide) (by decide)).1
    ["gemini"] "groq" ["openrouter", "anthropic", "deepseek"] "groq says hi"
    (by decide) (by decide) (by decide)

-- ==========================================================================
-- Claim C10: no answer synthesis without retrieved chunks
-- ==========================================================================

/-- Claim C10: when retrieval yields zero chunks, the response's `answer`
is `none` for every LLM oracle — the synthesis branch is never entered, so
no provider is invoked; conversely, with at least one chunk and
`generate_answer=true` the answer is exactly the dispatcher's result. -/
theorem c10_empty_retrieval_no_answer (coll : List QChunk) (top_k : Nat)
    (reranking_enabled : Bool) (threshold : Option ℚ)
    (rerank : List RetrievedChunk → Option (List RetrievedChunk))
    (h : (rag_query coll top_k reranking_enabled threshold rerank).1 = []) :
    (∀ oracle provider,
      query_answer true (rag_query coll top_k reranking_enabled threshold rerank).1
        oracle provider = none) ∧
    (∀ (retrieved : List RetrievedChunk) (oracle : String → Option String)
        (provider : String), retrieved ≠ [] →
      query_answer true retrieved oracle provider = generate_answer oracle provider) := by
  constructor
  · intro oracle provider
    rw [h]
    simp [query_answer]
  · intro retrieved oracle provider hne
    simp [query_answer, hne]

/-- Claim C10 witness: the statement evaluated on the empty collection,
whose retrieval returns zero chunks. -/
theorem c10_empty_retrieval_no_answer_witness :
    (∀ oracle provider,
      query_answer true (rag_query [] 5 false none fun _ => none).1
        oracle provider = none) ∧
    (∀ (retrieved : List RetrievedChunk) (oracle : String → Option String)
        (provider : String), retrieved ≠ [] →
      query_answer true retrieved oracle provider = generate_answer oracle provider) :=
  c10_empty_retrieval_no_answer [] 5 false none (fun _ => none) (by decide)
